import Mathlib

/-!
Verification development for the UnrealMCPProxy backend-connectivity and
call-dispatch subsystem (Python sources under `src/unreal_mcp_proxy/`).

The Python modules are shallowly embedded: dictionaries and JSON payloads
become the `Json` inductive below, exceptions become `Except`/explicit
outcome types, and the mutable `UnrealMCPClient` state becomes explicit
state passing over `ClientState`.
-/

namespace UnrealMCPProxy

/-- JSON values, the model of Python dict/list/str/int/bool/None payloads
exchanged between the proxy and the backend.  Numbers are modelled as
integers; none of the embedded code paths computes with fractional values. -/
inductive Json where
  | null : Json
  | bool (b : Bool) : Json
  | num (n : Int) : Json
  | str (s : String) : Json
  | arr (xs : List Json) : Json
  | obj (fields : List (String × Json)) : Json

mutual

/-- Boolean equality on JSON values, the model of Python `==`/`!=` on the
decoded payloads (Python `1 == True` style coercions do not arise for the
values compared in the embedded code, which are names and type strings). -/
def jsonBeq : Json → Json → Bool
  | .null, .null => true
  | .bool a, .bool b => a == b
  | .num a, .num b => a == b
  | .str a, .str b => a == b
  | .arr xs, .arr ys => jsonBeqList xs ys
  | .obj xs, .obj ys => jsonBeqFields xs ys
  | _, _ => false

/-- Elementwise `jsonBeq` on lists. -/
def jsonBeqList : List Json → List Json → Bool
  | [], [] => true
  | x :: xs, y :: ys => jsonBeq x y && jsonBeqList xs ys
  | _, _ => false

/-- Elementwise `jsonBeq` on object field lists. -/
def jsonBeqFields : List (String × Json) → List (String × Json) → Bool
  | [], [] => true
  | (k, v) :: xs, (l, w) :: ys => k == l && jsonBeq v w && jsonBeqFields xs ys
  | _, _ => false

end

/-- Lookup of a key in an object's field list: the model of Python
`dict.get(k)` (first binding wins; Python dicts have unique keys). -/
def getKey? (fields : List (String × Json)) (k : String) : Option Json :=
  (fields.find? (fun p => p.1 == k)).map (fun p => p.2)

/-- `dict.get(k)` on an arbitrary `Json` value: `none` when the value is not
an object (where Python would raise `AttributeError`, callers of this helper
in the embedding document how that exception propagates). -/
def jget (j : Json) (k : String) : Option Json :=
  match j with
  | .obj fields => getKey? fields k
  | _ => none

/-- Python truthiness of a JSON value (`bool(x)`). -/
def Json.truthy : Json → Bool
  | .null => false
  | .bool b => b
  | .num n => n != 0
  | .str s => !s.isEmpty
  | .arr xs => !xs.isEmpty
  | .obj fields => !fields.isEmpty

/-- JSON string escaping as performed by `json.dumps` for the characters that
occur in this code base (quote, backslash, newline, tab, carriage return;
`\uXXXX` escaping of other control and non-ASCII characters is not modelled). -/
def escapeJsonChar (c : Char) : List Char :=
  if c = '"' then ['\\', '"']
  else if c = '\\' then ['\\', '\\']
  else if c = '\n' then ['\\', 'n']
  else if c = '\t' then ['\\', 't']
  else if c = '\r' then ['\\', 'r']
  else [c]

/-- Escape a whole string for JSON output. -/
def escapeJsonString (s : String) : String :=
  String.mk ((s.data.map escapeJsonChar).flatten)

mutual

/-- `json.dumps` with Python's default separators (`", "` and `": "`),
restricted to the integer-numbered JSON values of the model. -/
def jsonDumps : Json → String
  | .null => "null"
  | .bool true => "true"
  | .bool false => "false"
  | .num n => toString n
  | .str s => "\"" ++ escapeJsonString s ++ "\""
  | .arr xs => "[" ++ jsonDumpsItems xs ++ "]"
  | .obj fields => "\x7b" ++ jsonDumpsFields fields ++ "\x7d"

/-- Comma-separated rendering of array elements. -/
def jsonDumpsItems : List Json → String
  | [] => ""
  | [x] => jsonDumps x
  | x :: y :: rest => jsonDumps x ++ ", " ++ jsonDumpsItems (y :: rest)

/-- Comma-separated rendering of object fields. -/
def jsonDumpsFields : List (String × Json) → String
  | [] => ""
  | [(k, v)] => "\"" ++ escapeJsonString k ++ "\": " ++ jsonDumps v
  | (k, v) :: q :: rest =>
      "\"" ++ escapeJsonString k ++ "\": " ++ jsonDumps v ++ ", " ++ jsonDumpsFields (q :: rest)

end

/-- Python `str(x)` for the values interpolated into log/error messages.
For strings it is the string itself; containers are rendered as JSON (an
approximation of Python's `repr`-based rendering, which no claim depends on). -/
def pyToStr : Json → String
  | .null => "None"
  | .bool true => "True"
  | .bool false => "False"
  | .num n => toString n
  | .str s => s
  | .arr xs => jsonDumps (.arr xs)
  | .obj fields => jsonDumps (.obj fields)

/-- `str(x)` for an optional value (`None` prints as `"None"`). -/
def optPyToStr : Option Json → String
  | none => "None"
  | some j => pyToStr j

/-- Does the character list start with the given pattern? -/
def listStartsWith : List Char → List Char → Bool
  | _, [] => true
  | [], _ :: _ => false
  | a :: as, b :: bs => a == b && listStartsWith as bs

/-- Does the pattern occur as a contiguous sublist? -/
def listHasSub : List Char → List Char → Bool
  | [], pat => pat.isEmpty
  | a :: as, pat => listStartsWith (a :: as) pat || listHasSub as pat

/-- Substring test on strings (Python `pat in s`). -/
def strContains (s pat : String) : Bool := listHasSub s.data pat.data

/-! ### A model of `json.loads`

A fuel-indexed recursive-descent reading of JSON text, covering the subset
produced and consumed by the embedded code: `null`, booleans, integers,
strings with simple escapes, arrays and objects.  Inputs outside this subset
(floats, `\u` escapes) yield `none`; every theorem that decodes text takes the
decoding result as a hypothesis, so this restriction only narrows the inputs
the theorems speak about, never what they assert. -/

/-- The `{` character, named to keep brace characters out of literals. -/
def braceOpen : Char := Char.ofNat 123

/-- The `}` character. -/
def braceClose : Char := Char.ofNat 125

/-- Is this a JSON whitespace character? -/
def isJsonWs (c : Char) : Bool := c = ' ' || c = '\n' || c = '\t' || c = '\r'

/-- Drop leading whitespace. -/
def skipWs : List Char → List Char
  | [] => []
  | c :: cs => if isJsonWs c then skipWs cs else c :: cs

/-- Read a string body up to the closing quote, handling simple escapes. -/
def parseStringBody : List Char → Option (String × List Char)
  | [] => none
  | '"' :: rest => some ("", rest)
  | '\\' :: rest =>
      match rest with
      | [] => none
      | c :: rest2 =>
        let esc : Option Char :=
          if c = '"' then some '"'
          else if c = '\\' then some '\\'
          else if c = '/' then some '/'
          else if c = 'n' then some '\n'
          else if c = 't' then some '\t'
          else if c = 'r' then some '\r'
          else none
        match esc with
        | some e => (parseStringBody rest2).map (fun p => (String.singleton e ++ p.1, p.2))
        | none => none
  | c :: rest => (parseStringBody rest).map (fun p => (String.singleton c ++ p.1, p.2))

/-- Split a leading run of decimal digits from the rest. -/
def takeDigits : List Char → (List Char × List Char)
  | [] => ([], [])
  | c :: cs =>
      if c.isDigit then
        let p := takeDigits cs
        (c :: p.1, p.2)
      else ([], c :: cs)

/-- Decimal digits to a natural number. -/
def digitsToNat (ds : List Char) : Nat :=
  ds.foldl (fun acc c => acc * 10 + (c.toNat - 48)) 0

/-- Read an integer literal (optionally negative); fractional or exponent
suffixes are outside the modelled subset. -/
def parseIntLit (s : List Char) : Option (Json × List Char) :=
  let (neg, s1) := match s with
    | '-' :: rest => (true, rest)
    | _ => (false, s)
  let p := takeDigits s1
  match p.1 with
  | [] => none
  | _ :: _ =>
    match p.2 with
    | '.' :: _ => none
    | 'e' :: _ => none
    | 'E' :: _ => none
    | rest =>
        let n : Int := Int.ofNat (digitsToNat p.1)
        some (.num (if neg then -n else n), rest)

mutual

/-- Read one JSON value. -/
def parseValue : Nat → List Char → Option (Json × List Char)
  | 0, _ => none
  | Nat.succ fuel, s =>
    match skipWs s with
    | [] => none
    | 'n' :: 'u' :: 'l' :: 'l' :: rest => some (.null, rest)
    | 't' :: 'r' :: 'u' :: 'e' :: rest => some (.bool true, rest)
    | 'f' :: 'a' :: 'l' :: 's' :: 'e' :: rest => some (.bool false, rest)
    | '"' :: rest => (parseStringBody rest).map (fun p => (.str p.1, p.2))
    | '[' :: rest => (parseArrayRest fuel rest).map (fun p => (.arr p.1, p.2))
    | c :: rest =>
        if c = braceOpen then (parseObjRest fuel rest).map (fun p => (.obj p.1, p.2))
        else parseIntLit (c :: rest)

/-- Read array elements after the opening bracket. -/
def parseArrayRest : Nat → List Char → Option (List Json × List Char)
  | 0, _ => none
  | Nat.succ fuel, s =>
    match skipWs s with
    | [] => none
    | ']' :: rest => some ([], rest)
    | c :: rest =>
      match parseValue fuel (c :: rest) with
      | some (v, r) =>
          (parseArrayMore fuel r).map (fun p => (v :: p.1, p.2))
      | none => none

/-- Read `, value` continuations up to the closing bracket. -/
def parseArrayMore : Nat → List Char → Option (List Json × List Char)
  | 0, _ => none
  | Nat.succ fuel, s =>
    match skipWs s with
    | [] => none
    | ']' :: rest => some ([], rest)
    | ',' :: rest =>
      match parseValue fuel rest with
      | some (v, r) => (parseArrayMore fuel r).map (fun p => (v :: p.1, p.2))
      | none => none
    | _ => none

/-- Read object members after the opening brace. -/
def parseObjRest : Nat → List Char → Option (List (String × Json) × List Char)
  | 0, _ => none
  | Nat.succ fuel, s =>
    match skipWs s with
    | [] => none
    | '"' :: rest =>
      match parseStringBody rest with
      | some (k, r) =>
        match skipWs r with
        | ':' :: r2 =>
          match parseValue fuel r2 with
          | some (v, r3) => (parseObjMore fuel r3).map (fun p => ((k, v) :: p.1, p.2))
          | none => none
        | _ => none
      | none => none
    | c :: rest => if c = braceClose then some ([], rest) else none

/-- Read `, "key": value` continuations up to the closing brace. -/
def parseObjMore : Nat → List Char → Option (List (String × Json) × List Char)
  | 0, _ => none
  | Nat.succ fuel, s =>
    match skipWs s with
    | [] => none
    | ',' :: rest =>
      match skipWs rest with
      | '"' :: rest2 =>
        match parseStringBody rest2 with
        | some (k, r) =>
          match skipWs r with
          | ':' :: r2 =>
            match parseValue fuel r2 with
            | some (v, r3) => (parseObjMore fuel r3).map (fun p => ((k, v) :: p.1, p.2))
            | none => none
          | _ => none
        | none => none
      | _ => none
    | c :: rest => if c = braceClose then some ([], rest) else none

end

/-- `json.loads` on the modelled subset: read one value and require only
whitespace to remain. -/
def jsonLoads (s : String) : Option Json :=
  match parseValue (4 * (s.length + 1)) s.data with
  | some (j, rest) => if (skipWs rest).isEmpty then some j else none
  | none => none

/-! ### `errors.create_error_response` -/

/-- The `error_data` dictionary built inside `create_error_response`:
`{"error": msg}` plus `"code"` when the code argument is truthy (Python
`if error_code:`, so an empty-string code is dropped, like `None`). -/
def error_data (error_message : String) (error_code : Option String) : Json :=
  match error_code with
  | some c =>
      if c.isEmpty then .obj [("error", .str error_message)]
      else .obj [("error", .str error_message), ("code", .str c)]
  | none => .obj [("error", .str error_message)]

/-- `errors.create_error_response`: the proxy's uniform structured error
shape `{isError: true, content: [{type: "text", text: dumps(error_data)}]}`. -/
def create_error_response (error_message : String) (error_code : Option String) : Json :=
  .obj [("isError", .bool true),
        ("content", .arr [.obj [("type", .str "text"),
                                ("text", .str (jsonDumps (error_data error_message error_code)))]])]

/-! ### `client/unreal_mcp.py` — connection state machine and transport

`UnrealMCPClient`'s mutable fields become `ClientState`; each `await` of the
HTTP layer is abstracted as an `HttpOutcome` describing how the backend (or
the network) behaved on that invocation, and every method that touches the
state is a function from state to state. -/

/-- `ConnectionState` enumeration of `client/unreal_mcp.py`. -/
inductive ConnectionState where
  | unknown : ConnectionState
  | online : ConnectionState
  | offline : ConnectionState
deriving DecidableEq, Repr

/-- The mutable fields of `UnrealMCPClient` relevant to the connection
state machine: `state`, whether `last_known_good_connection` has been set,
and `_health_check_started`. -/
structure ClientState where
  state : ConnectionState
  lastGoodSet : Bool
  healthStarted : Bool
deriving DecidableEq, Repr

/-- `UnrealMCPClient.__init__`: state starts UNKNOWN, no last-good timestamp,
health check not yet started. -/
def client_init : ClientState :=
  { state := .unknown, lastGoodSet := false, healthStarted := false }

/-- How one HTTP POST of `call_method` behaves: a 2xx response with a decoded
JSON body, an `httpx.ConnectError`, an `httpx.TimeoutException`, another
`httpx.HTTPError` (e.g. a non-2xx status from `raise_for_status`), or any
other exception (e.g. a JSON decode failure of the body). -/
inductive HttpOutcome where
  | success (body : Json) : HttpOutcome
  | connectFail (msg : String) : HttpOutcome
  | timeout (msg : String) : HttpOutcome
  | httpError (msg : String) : HttpOutcome
  | otherError (msg : String) : HttpOutcome

/-- The exception classes that can escape `call_method`, as seen by its
callers: `ConnectionError`, `TimeoutError`, or anything else. -/
inductive ToolError where
  | connectionError (msg : String) : ToolError
  | timeoutError (msg : String) : ToolError
  | otherExc (msg : String) : ToolError

/-- One invocation of `UnrealMCPClient.call_method`: returns the decoded
response or raises, and updates the connection state (ONLINE plus the
last-good timestamp on any successful response, OFFLINE on every exception
path).  `httpx.ConnectError` is re-raised as `ConnectionError` and
`httpx.TimeoutException` as `TimeoutError`, each with a prefixed message;
other exceptions propagate unchanged. -/
def call_method_step (o : HttpOutcome) (s : ClientState) : Except ToolError Json × ClientState :=
  match o with
  | .success body => (.ok body, { s with state := .online, lastGoodSet := true })
  | .connectFail m =>
      (.error (.connectionError ("Failed to connect to Unreal MCP server: " ++ m)),
       { s with state := .offline })
  | .timeout m =>
      (.error (.timeoutError ("Request to Unreal MCP server timed out: " ++ m)),
       { s with state := .offline })
  | .httpError m => (.error (.otherExc m), { s with state := .offline })
  | .otherError m => (.error (.otherExc m), { s with state := .offline })

/-- `UnrealMCPClient.initialize_async`: when the state is still UNKNOWN, run
the immediate low-timeout probe (`_check_connection_immediate`, summarized by
`probeOnline`: any response means online, connection/timeout failure means
offline) and set ONLINE/OFFLINE accordingly; then start the background health
check when an event loop is available (`loopAvail`). -/
def init_async (probeOnline loopAvail : Bool) (s : ClientState) : ClientState :=
  let s1 :=
    if s.state = ConnectionState.unknown then
      if probeOnline then { s with state := .online, lastGoodSet := true }
      else { s with state := .offline }
    else s
  if !s1.healthStarted && loopAvail then { s1 with healthStarted := true } else s1

/-- Python `"result" in response` inside `_health_check_loop`, for the decoded
response shapes on which `in` is defined; `none` marks the shapes where `in`
raises `TypeError` (which the loop's `except Exception` turns into OFFLINE). -/
def responseHasResult : Json → Option Bool
  | .obj fields => some (getKey? fields "result").isSome
  | .arr xs => some (xs.any (fun j => jsonBeq j (.str "result")))
  | .str s => some (strContains s "result")
  | _ => none

/-- One iteration of `_health_check_loop`: call `ping` through
`call_method`, then set ONLINE when the response has a `result` member and
OFFLINE otherwise; any exception sets OFFLINE. -/
def health_iter (o : HttpOutcome) (s : ClientState) : ClientState :=
  match call_method_step o s with
  | (.ok resp, s1) =>
    match responseHasResult resp with
    | some true => { s1 with state := .online }
    | _ => { s1 with state := .offline }
  | (.error _, s1) => { s1 with state := .offline }

/-- The operations that touch the client's connection state: the
construction-time/lazy initial probe, a periodic health-check iteration, and
a `call_method` invocation on behalf of any caller. -/
inductive ClientOp where
  | initAsync (probeOnline loopAvail : Bool) : ClientOp
  | healthIter (o : HttpOutcome) : ClientOp
  | methodCall (o : HttpOutcome) : ClientOp

/-- Apply one client operation to the state. -/
def client_step (op : ClientOp) (s : ClientState) : ClientState :=
  match op with
  | .initAsync p l => init_async p l s
  | .healthIter o => health_iter o s
  | .methodCall o => (call_method_step o s).2

/-- Apply a sequence of client operations in order. -/
def run_ops (ops : List ClientOp) (s : ClientState) : ClientState :=
  ops.foldl (fun t op => client_step op t) s

/-! ### `constants.py` / `config.ServerSettings` (retry and dispatch surface) -/

/-- `constants.DEFAULT_RETRY_MAX_ATTEMPTS`. -/
def DEFAULT_RETRY_MAX_ATTEMPTS : Nat := 3

/-- `constants.DEFAULT_RETRY_INITIAL_DELAY` (0.5 s). -/
def DEFAULT_RETRY_INITIAL_DELAY : Rat := 1 / 2

/-- `constants.DEFAULT_RETRY_MAX_DELAY` (5.0 s). -/
def DEFAULT_RETRY_MAX_DELAY : Rat := 5

/-- `constants.DEFAULT_RETRY_BACKOFF_FACTOR` (2.0). -/
def DEFAULT_RETRY_BACKOFF_FACTOR : Rat := 2

/-- The fields of `config.ServerSettings` consumed by the dispatch and retry
code (the delay fields affect only how long `asyncio.sleep` waits between
attempts, never which value is returned). -/
structure ServerSettings where
  retry_max_attempts : Nat := DEFAULT_RETRY_MAX_ATTEMPTS
  retry_initial_delay : Rat := DEFAULT_RETRY_INITIAL_DELAY
  retry_max_delay : Rat := DEFAULT_RETRY_MAX_DELAY
  retry_backoff_factor : Rat := DEFAULT_RETRY_BACKOFF_FACTOR
  health_check_start_on_first_call : Bool := true

/-- Settings with every field at its default. -/
def default_settings : ServerSettings := {}

/-! ### `tools.py` — retry policy and call dispatcher -/

/-- `tools.is_transient_error`:
`isinstance(error, (ConnectionError, TimeoutError))`. -/
def is_transient_error : ToolError → Bool
  | .connectionError _ => true
  | .timeoutError _ => true
  | .otherExc _ => false

/-- `tools.is_read_only_tool`.  `tool_fn` models the server-module attribute
lookup: `none` when no function was found, `some none` a function without
decorator metadata, `some (some b)` a function marked `@read_only` /
`@write_operation` (`tool_decorators.get_tool_read_only_flag`).  When the
decorator gives no answer, a truthy tool definition carrying a `readOnly`
key decides; otherwise the default is `false` (never retry unclassified
tools).  The source returns the raw `tool_definition["readOnly"]` value,
consumed only under `if not ...`, so Python truthiness is applied here;
tool definitions are dictionaries, non-object values take the default. -/
def is_read_only_tool (tool_name : String) (tool_definition : Option Json)
    (tool_fn : Option (Option Bool)) : Bool :=
  match tool_fn with
  | some (some flag) => flag
  | _ =>
    match tool_definition with
    | some (.obj fields) =>
        if (Json.obj fields).truthy && (getKey? fields "readOnly").isSome then
          match getKey? fields "readOnly" with
          | some v => v.truthy
          | none => false
        else false
    | _ => false

/-- `cached_proxy_tool_definitions.get(tool_name) if
cached_proxy_tool_definitions else None` — an absent or empty catalogue is
falsy and yields no definition. -/
def lookup_tool_def (catalogue : Option (List (String × Json))) (tool_name : String) :
    Option Json :=
  match catalogue with
  | some m => if m.isEmpty then none else getKey? m tool_name
  | none => none

/-- Outcome of `call_tool_with_retry`: the returned-or-raised value, the
client state afterwards, and how many transport invocations were made. -/
structure RetryResult where
  value : Except ToolError Json
  post : ClientState
  calls : Nat

/-- The read-only retry loop of `call_tool_with_retry`
(`for attempt in range(max_retries + 1)`): each attempt invokes the
transport once; on success the response is returned at once; a
`ConnectionError`/`TimeoutError` is retried while attempts remain (after an
`asyncio.sleep` backoff that affects no returned value) and re-raised on the
last attempt; any other exception is re-raised immediately. -/
def retry_loop (transport : Nat → HttpOutcome) (start : Nat) (attemptsLeft : Nat)
    (s : ClientState) : RetryResult :=
  let step := call_method_step (transport start) s
  match step.1 with
  | .ok resp => { value := .ok resp, post := step.2, calls := 1 }
  | .error e =>
    if is_transient_error e then
      match attemptsLeft with
      | 0 => { value := .error e, post := step.2, calls := 1 }
      | Nat.succ n =>
        let r := retry_loop transport (start + 1) n step.2
        { r with calls := r.calls + 1 }
    else { value := .error e, post := step.2, calls := 1 }

/-- `tools.call_tool_with_retry` with retry parameters left at the settings
defaults: a tool not classified read-only is executed exactly once and any
failure propagates; a read-only tool goes through the retry loop with
`settings.retry_max_attempts` retries beyond the first attempt. -/
def call_tool_with_retry (transport : Nat → HttpOutcome) (tool_name : String)
    (tool_fn : Option (Option Bool)) (catalogue : Option (List (String × Json)))
    (settings : ServerSettings) (s : ClientState) : RetryResult :=
  let proxy_tool_definition := lookup_tool_def catalogue tool_name
  if !(is_read_only_tool tool_name proxy_tool_definition tool_fn) then
    let step := call_method_step (transport 0) s
    { value := step.1, post := step.2, calls := 1 }
  else
    retry_loop transport 0 settings.retry_max_attempts s

/-- Post-processing of a transport-successful response inside `call_tool`'s
`try` block: a JSON-RPC `error` member becomes a structured error built from
its `code`/`message` (a falsy code is dropped, a missing message falls back
to `str(error)`); otherwise the `result` member, defaulting to `{}`, is
returned.  A non-object response or non-object `error` member makes the
attribute/containment access raise, which the surrounding `except Exception`
converts to the `internal_error` response; the raised text is modelled by the
exception class name. -/
def process_response (resp : Json) : Json :=
  match resp with
  | .obj fields =>
    match getKey? fields "error" with
    | some (.obj efields) =>
        let error_message :=
          match getKey? efields "message" with
          | some m => pyToStr m
          | none => pyToStr (.obj efields)
        create_error_response error_message
          (match getKey? efields "code" with
           | some c => if c.truthy then some (pyToStr c) else none
           | none => none)
    | some _ =>
        create_error_response ("Failed to call tool: " ++ "AttributeError")
          (some "internal_error")
    | none => (getKey? fields "result").getD (.obj [])
  | _ => create_error_response ("Failed to call tool: " ++ "TypeError") (some "internal_error")

/-- The `except` handlers at the bottom of `call_tool`, converting each
exception class into the structured error response with its code. -/
def dispatch_error_response (e : ToolError) : Json :=
  match e with
  | .connectionError m =>
      create_error_response ("Failed to connect to Unreal MCP server: " ++ m)
        (some "connection_error")
  | .timeoutError m =>
      create_error_response ("Request to Unreal MCP server timed out: " ++ m)
        (some "timeout_error")
  | .otherExc m =>
      create_error_response ("Failed to call tool: " ++ m) (some "internal_error")

/-- The backend-unavailable message of `call_tool`. -/
def backend_unavailable_message : String :=
  "Unreal MCP server is not available. Please ensure Unreal Editor is running and the UnrealMCPServer plugin is enabled."

/-- The unknown-tool guard of `call_tool`:
`cached_proxy_tool_definitions and tool_name not in cached_proxy_tool_definitions`
(a `None` or empty catalogue is falsy, so the check is skipped). -/
def tool_missing (catalogue : Option (List (String × Json))) (tool_name : String) : Bool :=
  match catalogue with
  | some m => !m.isEmpty && (getKey? m tool_name).isNone
  | none => false

/-- Outcome of `call_tool`: the result dictionary, the client state
afterwards, and how many transport (`call_method`) invocations were made. -/
structure DispatchResult where
  result : Json
  post : ClientState
  calls : Nat

/-- `tools.call_tool`, the dispatcher.  In order: lazy initialization of the
health check on the first call (the immediate probe uses its own short-lived
HTTP client, not the shared transport, so it adds no transport invocation);
the unknown-tool short circuit (skipped when the catalogue is `None` or
empty, both falsy in Python); the OFFLINE fail-fast; then the call through
the retry policy, whose response or exception is normalized to the uniform
result shape. -/
def call_tool (tool_name : String) (catalogue : Option (List (String × Json)))
    (tool_fn : Option (Option Bool)) (settings : ServerSettings)
    (probeOnline loopAvail : Bool) (transport : Nat → HttpOutcome)
    (s : ClientState) : DispatchResult :=
  let s0 :=
    if settings.health_check_start_on_first_call && !s.healthStarted then
      init_async probeOnline loopAvail s
    else s
  if tool_missing catalogue tool_name then
    { result := create_error_response ("Tool \x27" ++ tool_name ++ "\x27 not found") none,
      post := s0, calls := 0 }
  else if s0.state = ConnectionState.offline then
    { result := create_error_response backend_unavailable_message none,
      post := s0, calls := 0 }
  else
    let r := call_tool_with_retry transport tool_name tool_fn catalogue settings s0
    match r.value with
    | .ok resp => { result := process_response resp, post := r.post, calls := r.calls }
    | .error e => { result := dispatch_error_response e, post := r.post, calls := r.calls }

/-- `tools.handle_tool_result`, total up to the exceptions the source can
raise on malformed shapes (`AttributeError`/`IndexError`/`TypeError`, e.g.
`[0]` on an empty content list, or `.get` on a decoded non-dict error
payload), which become `Except.error` carrying the exception class name.
On an `isError` result the embedded error text is decoded and re-wrapped;
on a text content the decoded payload is returned, except that a dict
declaring `bSuccess: False` (Python `is False`, so exactly the boolean) is
converted to a structured error carrying its embedded message. -/
def handle_tool_result (result : Json) : Except String Json :=
  match result with
  | .obj fields =>
    if (getKey? fields "isError").elim false Json.truthy then
      match (getKey? fields "content").getD (.arr [.obj []]) with
      | .arr (first :: _) =>
        match first with
        | .obj cfields =>
          match (getKey? cfields "text").getD (.str "\x7b\x7d") with
          | .str ts =>
            match jsonLoads ts with
            | some (.obj efields) =>
                .ok (create_error_response
                      (match getKey? efields "error" with
                       | some (.str m) => m
                       | some other => pyToStr other
                       | none => "Unknown error")
                      (match getKey? efields "code" with
                       | some c => if c.truthy then some (pyToStr c) else none
                       | none => none))
            | some _ => .error "AttributeError"
            | none => .ok (create_error_response ts none)
          | _ => .error "TypeError"
        | _ => .error "AttributeError"
      | .arr [] => .error "IndexError"
      | _ => .error "TypeError"
    else
      match (getKey? fields "content").getD (.arr [.obj []]) with
      | .arr (first :: _) =>
        match first with
        | .obj cfields =>
          if (match getKey? cfields "type" with
              | some t => jsonBeq t (.str "text")
              | none => false) then
            match (getKey? cfields "text").getD (.str "\x7b\x7d") with
            | .str ts =>
              match jsonLoads ts with
              | some parsed =>
                if (match parsed with
                    | .obj pfields =>
                        (match getKey? pfields "bSuccess" with
                         | some (.bool false) => true
                         | _ => false)
                    | _ => false) then
                  .ok (create_error_response
                        (match parsed with
                         | .obj pfields =>
                             (match getKey? pfields "error" with
                              | some (.str m) => m
                              | some other => pyToStr other
                              | none => "Operation failed")
                         | _ => "Operation failed")
                        none)
                else .ok parsed
              | none => .ok (.obj [("text", .str ts)])
            | _ => .error "TypeError"
          else .ok result
        | _ => .error "AttributeError"
      | .arr [] => .error "IndexError"
      | _ => .error "TypeError"
  | _ => .error "AttributeError"

/-! ### `tool_definitions.compare_tool_definitions` — compatibility checker -/

/-- The `compatible_types` groups of `compare_tool_definitions`: two declared
`type` values that differ are still compatible exactly when both lie in one
of the groups `{number, integer}`, `{string}`, `{boolean}`, `{array}`,
`{object}` (membership is Python `in` on a set of strings, so a non-string
type value belongs to no group). -/
def types_compatible (cached_type backend_type : Json) : Bool :=
  let compatible_types : List (List Json) :=
    [[.str "number", .str "integer"], [.str "string"], [.str "boolean"],
     [.str "array"], [.str "object"]]
  compatible_types.any (fun g =>
    g.any (fun t => jsonBeq cached_type t) && g.any (fun t => jsonBeq backend_type t))

/-- Python `f in props` / `props[f]` for a schema `properties` value: only a
string field name can be a key of a (dictionary-shaped) properties object. -/
def propGet (props : Json) (f : Json) : Option Json :=
  match props, f with
  | .obj fields, .str s => getKey? fields s
  | _, _ => none

/-- `tool_definitions.compare_tool_definitions`: names must match (else a
single name-mismatch issue and an early return); every backend-required
field missing from the proxy properties is reported in one joined issue; and
for each backend-required field present in both property maps with both
`type` values declared and truthy, differing types outside a common
compatibility group yield a type-mismatch issue.  Non-required fields,
descriptions and defaults are never inspected.  A non-list `required` value
and non-dictionary schema nodes are outside the modelled input space (the
source would iterate or raise on them). -/
def compare_tool_definitions (cached_tool backend_tool : Json) : List String :=
  let cachedName := jget cached_tool "name"
  let backendName := jget backend_tool "name"
  if !(match cachedName, backendName with
       | some a, some b => jsonBeq a b
       | none, none => true
       | _, _ => false) then
    ["Name mismatch: proxy=\x27" ++ optPyToStr cachedName ++ "\x27, backend=\x27" ++
     optPyToStr backendName ++ "\x27"]
  else
    let cached_input := (jget cached_tool "inputSchema").getD (.obj [])
    let backend_input := (jget backend_tool "inputSchema").getD (.obj [])
    let backend_required : List Json :=
      match jget backend_input "required" with
      | some (.arr xs) => xs
      | _ => []
    let cached_properties := (jget cached_input "properties").getD (.obj [])
    let missing_required :=
      backend_required.filter (fun f => (propGet cached_properties f).isNone)
    let missingIssues :=
      if missing_required.isEmpty then ([] : List String)
      else ["Missing required fields in proxy schema: " ++
            String.intercalate ", " (missing_required.map pyToStr)]
    let backend_properties := (jget backend_input "properties").getD (.obj [])
    let typeIssues := backend_required.filterMap (fun f =>
      if (propGet cached_properties f).isSome && (propGet backend_properties f).isSome then
        match (propGet cached_properties f).bind (fun p => jget p "type"),
              (propGet backend_properties f).bind (fun p => jget p "type") with
        | some ct, some bt =>
          if ct.truthy && bt.truthy && !(jsonBeq ct bt) then
            if types_compatible ct bt then none
            else some ("Type mismatch for required field \x27" ++ pyToStr f ++
                       "\x27: proxy=\x27" ++ pyToStr ct ++ "\x27, backend=\x27" ++
                       pyToStr bt ++ "\x27")
          else none
        | _, _ => none
      else none)
    missingIssues ++ typeIssues

/-- The specification's type-compatibility rule, written from the spec's
words for comparison with the source behaviour: integer and number are
interchangeable; any other type category matches only itself. -/
def spec_types_compatible (cached_type backend_type : Json) : Bool :=
  jsonBeq cached_type backend_type ||
  ((jsonBeq cached_type (.str "integer") || jsonBeq cached_type (.str "number")) &&
   (jsonBeq backend_type (.str "integer") || jsonBeq backend_type (.str "number")))

/-- The transient/network failure class of the error taxonomy, at the
transport-outcome level: exactly the outcomes that reach callers of
`call_method` as `ConnectionError` or `TimeoutError`. -/
def http_transient : HttpOutcome → Bool
  | .connectFail _ => true
  | .timeout _ => true
  | _ => false

/-- Build a tool definition object with a name, a `properties` map and a
`required` list — the schema shape shared by the proxy catalogue and the
backend's `tools/list` entries. -/
def mk_tool (name : String) (props : List (String × Json)) (req : List Json) : Json :=
  .obj [("name", .str name),
        ("inputSchema", .obj [("properties", .obj props), ("required", .arr req)])]

/-! ## Theorems -/

/-- No single client operation writes UNKNOWN over a non-UNKNOWN state. -/
theorem client_step_no_unknown (op : ClientOp) (s : ClientState)
    (h : s.state ≠ ConnectionState.unknown) :
    (client_step op s).state ≠ ConnectionState.unknown := by
  cases op with
  | initAsync p l =>
      simp only [client_step, init_async, if_neg h]
      split <;> simpa using h
  | healthIter o =>
      cases o <;> simp only [client_step, health_iter, call_method_step] <;>
        first
          | (split <;> simp)
          | simp
  | methodCall o =>
      cases o <;> simp [client_step, call_method_step]

/-- Lifting of `client_step_no_unknown` to operation sequences. -/
theorem run_ops_no_unknown (more : List ClientOp) :
    ∀ s : ClientState, s.state ≠ ConnectionState.unknown →
      (run_ops more s).state ≠ ConnectionState.unknown := by
  induction more with
  | nil => intro s h; simpa [run_ops] using h
  | cons op rest ih =>
      intro s h
      simpa [run_ops] using ih (client_step op s) (client_step_no_unknown op s h)

/-- C9: every reachable Health Monitor state is one of UNKNOWN, ONLINE,
OFFLINE, and once a run of client operations (initial probe, health-check
iterations, `call_method` outcomes) has left UNKNOWN, no further operations
ever bring the state back to UNKNOWN. -/
theorem connection_state_machine_sound :
    (∀ ops : List ClientOp,
        (run_ops ops client_init).state = ConnectionState.unknown ∨
        (run_ops ops client_init).state = ConnectionState.online ∨
        (run_ops ops client_init).state = ConnectionState.offline) ∧
    (∀ ops more : List ClientOp,
        (run_ops ops client_init).state ≠ ConnectionState.unknown →
        (run_ops (ops ++ more) client_init).state ≠ ConnectionState.unknown) := by
  constructor
  · intro ops
    cases (run_ops ops client_init).state <;> simp
  · intro ops more h
    have : run_ops (ops ++ more) client_init = run_ops more (run_ops ops client_init) := by
      simp [run_ops, List.foldl_append]
    rw [this]
    exact run_ops_no_unknown more _ h

/-- Witness for C9: a concrete run that has gone ONLINE stays out of
UNKNOWN through a later failing probe. -/
theorem connection_state_machine_sound_witness :
    (run_ops [ClientOp.initAsync true true] client_init).state ≠ ConnectionState.unknown ∧
    (run_ops ([ClientOp.initAsync true true] ++
        [ClientOp.healthIter (HttpOutcome.connectFail "refused")]) client_init).state ≠
      ConnectionState.unknown :=
  ⟨by decide,
   connection_state_machine_sound.2 [ClientOp.initAsync true true]
     [ClientOp.healthIter (HttpOutcome.connectFail "refused")] (by decide)⟩

/-- C10 counterexample: `call_method` does NOT leave the ConnectionState
unchanged — a successful response while the recorded state is OFFLINE
flips the state to ONLINE (the source's passive health update). -/
theorem call_method_leaves_state_unchanged_cex :
    ((call_method_step (HttpOutcome.success (Json.obj []))
        { state := ConnectionState.offline, lastGoodSet := false,
          healthStarted := false }).2).state ≠
      ({ state := ConnectionState.offline, lastGoodSet := false,
         healthStarted := false } : ClientState).state := by
  simp [call_method_step]

/-- C10 (amended): `call_method` updates the ConnectionState as a passive
health observation — ONLINE on any successful response, OFFLINE on every
exception path — never writes UNKNOWN, and touches no other control state
(the health-check bookkeeping is unchanged). -/
theorem call_method_state_effect (o : HttpOutcome) (s : ClientState) :
    ((call_method_step o s).2).state =
      (match o with
       | HttpOutcome.success _ => ConnectionState.online
       | _ => ConnectionState.offline) ∧
    ((call_method_step o s).2).state ≠ ConnectionState.unknown ∧
    ((call_method_step o s).2).healthStarted = s.healthStarted := by
  cases o <;> simp [call_method_step]

/-- C3: a tool name absent from a loaded (non-empty) catalogue short-circuits
to the structured "tool not found" error with zero transport invocations. -/
theorem unknown_tool_no_backend_call (tool_name : String)
    (m : List (String × Json)) (tool_fn : Option (Option Bool))
    (settings : ServerSettings) (probeOnline loopAvail : Bool)
    (transport : Nat → HttpOutcome) (s : ClientState)
    (hmne : m ≠ []) (hnot : getKey? m tool_name = none) :
    (call_tool tool_name (some m) tool_fn settings probeOnline loopAvail transport s).result =
      create_error_response ("Tool \x27" ++ tool_name ++ "\x27 not found") none ∧
    (call_tool tool_name (some m) tool_fn settings probeOnline loopAvail transport s).calls = 0 := by
  have hguard : tool_missing (some m) tool_name = true := by
    simp [tool_missing, hnot, List.isEmpty_iff, hmne]
  constructor <;> simp [call_tool, hguard]

/-- Witness for C3. -/
theorem unknown_tool_no_backend_call_witness :
    ([("get_project_config", Json.obj [])] ≠ ([] : List (String × Json))) ∧
    getKey? [("get_project_config", Json.obj [])] "missing_tool" = none ∧
    ((call_tool "missing_tool" (some [("get_project_config", Json.obj [])]) none
        default_settings true true (fun _ => HttpOutcome.success (Json.obj []))
        client_init).result =
      create_error_response "Tool \x27missing_tool\x27 not found" none ∧
     (call_tool "missing_tool" (some [("get_project_config", Json.obj [])]) none
        default_settings true true (fun _ => HttpOutcome.success (Json.obj []))
        client_init).calls = 0) :=
  ⟨by simp, by rfl,
   unknown_tool_no_backend_call "missing_tool" [("get_project_config", Json.obj [])] none
     default_settings true true (fun _ => HttpOutcome.success (Json.obj []))
     client_init (by simp) (by rfl)⟩

/-- `initialize_async` only writes the state when it is still UNKNOWN. -/
theorem init_async_preserves_non_unknown (p l : Bool) (s : ClientState)
    (h : s.state ≠ ConnectionState.unknown) : (init_async p l s).state = s.state := by
  simp only [init_async, if_neg h]
  split <;> rfl

/-- C4: dispatching a catalogued tool while the ConnectionState is OFFLINE
returns the structured backend-unavailable error and performs zero transport
invocations. -/
theorem offline_fail_fast (tool_name : String) (m : List (String × Json))
    (tool_fn : Option (Option Bool)) (settings : ServerSettings)
    (probeOnline loopAvail : Bool) (transport : Nat → HttpOutcome) (s : ClientState)
    (hmem : (getKey? m tool_name).isSome) (hoff : s.state = ConnectionState.offline) :
    (call_tool tool_name (some m) tool_fn settings probeOnline loopAvail transport s).result =
      create_error_response backend_unavailable_message none ∧
    (call_tool tool_name (some m) tool_fn settings probeOnline loopAvail transport s).calls = 0 := by
  have hguard : tool_missing (some m) tool_name = false := by
    cases hk : getKey? m tool_name with
    | none => rw [hk] at hmem; simp at hmem
    | some v => simp [tool_missing, hk]
  have hinit : (init_async probeOnline loopAvail s).state = ConnectionState.offline := by
    rw [init_async_preserves_non_unknown probeOnline loopAvail s (by rw [hoff]; simp)]
    exact hoff
  have hs0 : (if settings.health_check_start_on_first_call && !s.healthStarted then
      init_async probeOnline loopAvail s else s).state = ConnectionState.offline := by
    split
    · exact hinit
    · exact hoff
  have hne : ¬(tool_missing (some m) tool_name = true) := by
    rw [hguard]; simp
  constructor
  · simp only [call_tool, if_neg hne, if_pos hs0]
  · simp only [call_tool, if_neg hne, if_pos hs0]

/-- Witness for C4. -/
theorem offline_fail_fast_witness :
    (getKey? [("get_project_config", Json.obj [])] "get_project_config").isSome = true ∧
    ({ state := ConnectionState.offline, lastGoodSet := false, healthStarted := false } :
        ClientState).state = ConnectionState.offline ∧
    ((call_tool "get_project_config" (some [("get_project_config", Json.obj [])]) none
        default_settings true true (fun _ => HttpOutcome.success (Json.obj []))
        { state := ConnectionState.offline, lastGoodSet := false,
          healthStarted := false }).result =
      create_error_response backend_unavailable_message none ∧
     (call_tool "get_project_config" (some [("get_project_config", Json.obj [])]) none
        default_settings true true (fun _ => HttpOutcome.success (Json.obj []))
        { state := ConnectionState.offline, lastGoodSet := false,
          healthStarted := false }).calls = 0) :=
  ⟨by rfl, by rfl,
   offline_fail_fast "get_project_config" [("get_project_config", Json.obj [])] none
     default_settings true true (fun _ => HttpOutcome.success (Json.obj []))
     { state := ConnectionState.offline, lastGoodSet := false, healthStarted := false }
     (by rfl) (by rfl)⟩

/-- C5: for a tool classified read-only, a non-transient first outcome — a
successful transport response (including JSON-RPC error responses and
`bSuccess: false` business failures, which are transport successes), an HTTP
status/decoding failure, or any other exception — is returned/propagated
after exactly one transport invocation, with no retry; only connection or
timeout failures can ever trigger a second invocation. -/
theorem read_only_non_transient_no_retry (transport : Nat → HttpOutcome)
    (tool_name : String) (tool_fn : Option (Option Bool))
    (catalogue : Option (List (String × Json))) (settings : ServerSettings)
    (s : ClientState)
    (hro : is_read_only_tool tool_name (lookup_tool_def catalogue tool_name) tool_fn = true)
    (hnt : http_transient (transport 0) = false) :
    (call_tool_with_retry transport tool_name tool_fn catalogue settings s).calls = 1 ∧
    (call_tool_with_retry transport tool_name tool_fn catalogue settings s).value =
      (call_method_step (transport 0) s).1 := by
  cases ho : transport 0 <;> rw [ho] at hnt <;> simp [http_transient] at hnt <;>
    constructor <;>
      simp [call_tool_with_retry, hro, retry_loop, ho, call_method_step, is_transient_error]

/-- Witness for C5: a backend JSON-RPC error response is handed back after a
single invocation. -/
theorem read_only_non_transient_no_retry_witness :
    is_read_only_tool "get_project_config"
      (lookup_tool_def none "get_project_config") (some (some true)) = true ∧
    http_transient ((fun _ => HttpOutcome.success
      (Json.obj [("error", Json.obj [("code", Json.num (-32601)),
        ("message", Json.str "not found")])])) 0) = false ∧
    ((call_tool_with_retry (fun _ => HttpOutcome.success
        (Json.obj [("error", Json.obj [("code", Json.num (-32601)),
          ("message", Json.str "not found")])]))
        "get_project_config" (some (some true)) none default_settings client_init).calls = 1 ∧
     (call_tool_with_retry (fun _ => HttpOutcome.success
        (Json.obj [("error", Json.obj [("code", Json.num (-32601)),
          ("message", Json.str "not found")])]))
        "get_project_config" (some (some true)) none default_settings client_init).value =
       (call_method_step ((fun _ => HttpOutcome.success
          (Json.obj [("error", Json.obj [("code", Json.num (-32601)),
            ("message", Json.str "not found")])])) 0) client_init).1) :=
  ⟨by rfl, by rfl,
   read_only_non_transient_no_retry _ "get_project_config" (some (some true)) none
     default_settings client_init (by rfl) (by rfl)⟩

/-- C6: a tool with neither decorator metadata nor a `readOnly` field in its
catalogue entry is classified non-idempotent (`false`) and executed exactly
once, never retried. -/
theorem unclassified_tool_single_call (transport : Nat → HttpOutcome)
    (tool_name : String) (tool_fn : Option (Option Bool))
    (catalogue : Option (List (String × Json))) (settings : ServerSettings)
    (s : ClientState)
    (hfn : tool_fn = none ∨ tool_fn = some none)
    (hdef : ∀ fields, lookup_tool_def catalogue tool_name = some (Json.obj fields) →
        getKey? fields "readOnly" = none) :
    is_read_only_tool tool_name (lookup_tool_def catalogue tool_name) tool_fn = false ∧
    (call_tool_with_retry transport tool_name tool_fn catalogue settings s).calls = 1 := by
  have hro : is_read_only_tool tool_name (lookup_tool_def catalogue tool_name) tool_fn = false := by
    rcases hfn with h | h <;> subst h <;>
    · cases hd : lookup_tool_def catalogue tool_name with
      | none => rfl
      | some j =>
          cases j with
          | obj fields => simp [is_read_only_tool, hdef fields hd]
          | null => rfl
          | bool b => rfl
          | num nn => rfl
          | str st => rfl
          | arr xs => rfl
  exact ⟨hro, by simp [call_tool_with_retry, hro]⟩

/-- Witness for C6: a catalogue entry without a `readOnly` key and no
decorator metadata runs exactly once. -/
theorem unclassified_tool_single_call_witness :
    ((none : Option (Option Bool)) = none ∨ (none : Option (Option Bool)) = some none) ∧
    (is_read_only_tool "execute_console_command"
        (lookup_tool_def (some [("execute_console_command",
          Json.obj [("name", Json.str "execute_console_command")])])
          "execute_console_command") none = false ∧
     (call_tool_with_retry (fun _ => HttpOutcome.connectFail "refused")
        "execute_console_command" none
        (some [("execute_console_command",
          Json.obj [("name", Json.str "execute_console_command")])])
        default_settings client_init).calls = 1) :=
  ⟨Or.inl rfl,
   unclassified_tool_single_call (fun _ => HttpOutcome.connectFail "refused")
     "execute_console_command" none
     (some [("execute_console_command",
       Json.obj [("name", Json.str "execute_console_command")])])
     default_settings client_init (Or.inl rfl)
     (by
       intro fields h
       have h2 : Json.obj [("name", Json.str "execute_console_command")] = Json.obj fields :=
         Option.some.inj h
       rw [← Json.obj.inj h2]
       rfl)⟩

/-- C2: with default retry settings and a transport that fails transiently on
the first two invocations and succeeds on the third, dispatching a read-only
tool succeeds (returning the decoded result payload) with exactly 3 transport
invocations, while dispatching a write/non-idempotent tool fails (structured
`isError` result) after exactly 1 transport invocation. -/
theorem retry_read_only_vs_write (transport : Nat → HttpOutcome)
    (rname wname : String) (rfn wfn : Option (Option Bool))
    (catalogue : Option (List (String × Json))) (probeOnline loopAvail : Bool)
    (s : ClientState) (respFields : List (String × Json))
    (h0 : http_transient (transport 0) = true)
    (h1 : http_transient (transport 1) = true)
    (h2 : transport 2 = HttpOutcome.success (Json.obj respFields))
    (herr : getKey? respFields "error" = none)
    (hro : is_read_only_tool rname (lookup_tool_def catalogue rname) rfn = true)
    (hwr : is_read_only_tool wname (lookup_tool_def catalogue wname) wfn = false)
    (hcr : tool_missing catalogue rname = false)
    (hcw : tool_missing catalogue wname = false)
    (hstart : s.healthStarted = true) (hnoff : s.state ≠ ConnectionState.offline) :
    ((call_tool rname catalogue rfn default_settings probeOnline loopAvail transport s).calls = 3 ∧
     (call_tool rname catalogue rfn default_settings probeOnline loopAvail transport s).result =
       (getKey? respFields "result").getD (Json.obj [])) ∧
    ((call_tool wname catalogue wfn default_settings probeOnline loopAvail transport s).calls = 1 ∧
     jget (call_tool wname catalogue wfn default_settings probeOnline loopAvail
        transport s).result "isError" = some (Json.bool true)) := by
  have hs0 : (if default_settings.health_check_start_on_first_call && !s.healthStarted then
      init_async probeOnline loopAvail s else s) = s := by
    simp [default_settings, hstart]
  have hr3 : (call_tool_with_retry transport rname rfn catalogue default_settings s).value =
        Except.ok (Json.obj respFields) ∧
      (call_tool_with_retry transport rname rfn catalogue default_settings s).calls = 3 := by
    cases o0 : transport 0 <;> rw [o0] at h0 <;> simp [http_transient] at h0 <;>
      (cases o1 : transport 1 <;> rw [o1] at h1 <;> simp [http_transient] at h1 <;>
        (constructor <;>
          simp [call_tool_with_retry, hro, retry_loop, o0, o1, h2, call_method_step,
                is_transient_error, default_settings, DEFAULT_RETRY_MAX_ATTEMPTS]))
  have hwv : (call_tool_with_retry transport wname wfn catalogue default_settings s).value =
        (call_method_step (transport 0) s).1 ∧
      (call_tool_with_retry transport wname wfn catalogue default_settings s).calls = 1 := by
    constructor <;> simp [call_tool_with_retry, hwr]
  have hne_r : ¬(tool_missing catalogue rname = true) := by rw [hcr]; simp
  have hne_w : ¬(tool_missing catalogue wname = true) := by rw [hcw]; simp
  refine ⟨⟨?_, ?_⟩, ?_, ?_⟩
  · simp only [call_tool, if_neg hne_r, hs0, if_neg hnoff, hr3.1, hr3.2]
  · simp only [call_tool, if_neg hne_r, hs0, if_neg hnoff, hr3.1]
    simp [process_response, herr]
  · simp only [call_tool, if_neg hne_w, hs0, if_neg hnoff]
    cases hv : (call_tool_with_retry transport wname wfn catalogue default_settings s).value <;>
      simp [hwv.2]
  · simp only [call_tool, if_neg hne_w, hs0, if_neg hnoff, hwv.1]
    cases o0 : transport 0 <;> rw [o0] at h0 <;> simp [http_transient] at h0 <;>
      simp [call_method_step, dispatch_error_response, create_error_response, jget, getKey?]

/-- Witness for C2: a concrete transport failing twice then succeeding,
dispatched for a decorated read-only tool and a decorated write tool. -/
theorem retry_read_only_vs_write_witness :
    http_transient ((fun i => if i < 2 then HttpOutcome.connectFail "refused"
      else HttpOutcome.success (Json.obj [("result", Json.str "ok")])) 0) = true ∧
    (fun i => if i < 2 then HttpOutcome.connectFail "refused"
      else HttpOutcome.success (Json.obj [("result", Json.str "ok")])) 2 =
      HttpOutcome.success (Json.obj [("result", Json.str "ok")]) ∧
    ((call_tool "get_project_config"
        (some [("get_project_config", Json.obj []), ("execute_console_command", Json.obj [])])
        (some (some true)) default_settings true true
        (fun i => if i < 2 then HttpOutcome.connectFail "refused"
          else HttpOutcome.success (Json.obj [("result", Json.str "ok")]))
        { state := ConnectionState.online, lastGoodSet := true,
          healthStarted := true }).calls = 3 ∧
     (call_tool "get_project_config"
        (some [("get_project_config", Json.obj []), ("execute_console_command", Json.obj [])])
        (some (some true)) default_settings true true
        (fun i => if i < 2 then HttpOutcome.connectFail "refused"
          else HttpOutcome.success (Json.obj [("result", Json.str "ok")]))
        { state := ConnectionState.online, lastGoodSet := true,
          healthStarted := true }).result = Json.str "ok") ∧
    ((call_tool "execute_console_command"
        (some [("get_project_config", Json.obj []), ("execute_console_command", Json.obj [])])
        (some (some false)) default_settings true true
        (fun i => if i < 2 then HttpOutcome.connectFail "refused"
          else HttpOutcome.success (Json.obj [("result", Json.str "ok")]))
        { state := ConnectionState.online, lastGoodSet := true,
          healthStarted := true }).calls = 1 ∧
     jget (call_tool "execute_console_command"
        (some [("get_project_config", Json.obj []), ("execute_console_command", Json.obj [])])
        (some (some false)) default_settings true true
        (fun i => if i < 2 then HttpOutcome.connectFail "refused"
          else HttpOutcome.success (Json.obj [("result", Json.str "ok")]))
        { state := ConnectionState.online, lastGoodSet := true,
          healthStarted := true }).result "isError" = some (Json.bool true)) :=
  ⟨rfl, rfl,
   (retry_read_only_vs_write
     (fun i => if i < 2 then HttpOutcome.connectFail "refused"
       else HttpOutcome.success (Json.obj [("result", Json.str "ok")]))
     "get_project_config" "execute_console_command" (some (some true)) (some (some false))
     (some [("get_project_config", Json.obj []), ("execute_console_command", Json.obj [])])
     true true
     { state := ConnectionState.online, lastGoodSet := true, healthStarted := true }
     [("result", Json.str "ok")]
     rfl rfl rfl rfl rfl rfl rfl rfl rfl (by decide)).1,
   (retry_read_only_vs_write
     (fun i => if i < 2 then HttpOutcome.connectFail "refused"
       else HttpOutcome.success (Json.obj [("result", Json.str "ok")]))
     "get_project_config" "execute_console_command" (some (some true)) (some (some false))
     (some [("get_project_config", Json.obj []), ("execute_console_command", Json.obj [])])
     true true
     { state := ConnectionState.online, lastGoodSet := true, healthStarted := true }
     [("result", Json.str "ok")]
     rfl rfl rfl rfl rfl rfl rfl rfl rfl (by decide)).2⟩

/-- A list starts with itself prefixed to anything. -/
theorem listStartsWith_append (xs ys : List Char) : listStartsWith (xs ++ ys) xs = true := by
  induction xs with
  | nil => simp [listStartsWith]
  | cons a as ih => simp [listStartsWith, ih]

/-- A prefix occurrence is an occurrence. -/
theorem listHasSub_of_startsWith (l pat : List Char) (h : listStartsWith l pat = true) :
    listHasSub l pat = true := by
  cases l with
  | nil =>
      cases pat with
      | nil => rfl
      | cons b bs => simp [listStartsWith] at h
  | cons a as => simp [listHasSub, h]

/-- Occurrences survive prepending. -/
theorem listHasSub_append_left (pre l pat : List Char) (h : listHasSub l pat = true) :
    listHasSub (pre ++ l) pat = true := by
  induction pre with
  | nil => simpa using h
  | cons a as ih => simp [listHasSub, ih]

/-- Escape-free strings are fixed by JSON escaping. -/
theorem flatten_escape_id (l : List Char)
    (h : l.all (fun c => escapeJsonChar c == [c]) = true) :
    (l.map escapeJsonChar).flatten = l := by
  induction l with
  | nil => rfl
  | cons c cs ih =>
      rw [List.all_cons, Bool.and_eq_true] at h
      have hc : escapeJsonChar c = [c] := by simpa using h.1
      simp [hc, ih h.2]

/-- Escape-free strings are fixed by `escapeJsonString`. -/
theorem escapeJsonString_id (x : String)
    (h : x.data.all (fun c => escapeJsonChar c == [c]) = true) :
    escapeJsonString x = x := by
  cases x with
  | mk l =>
      simp only [escapeJsonString]
      rw [flatten_escape_id l h]

/-- The serialized `error_data` text of a structured error contains the
escape-free error message verbatim. -/
theorem error_text_has_message (x : String)
    (h : x.data.all (fun c => escapeJsonChar c == [c]) = true) :
    strContains (jsonDumps (error_data x none)) x = true := by
  have hesc := escapeJsonString_id x h
  have hd : (jsonDumps (error_data x none)).data =
      "\x7b\"".data ++ (escapeJsonString "error").data ++ "\": ".data ++ "\"".data ++
        (x.data ++ "\"\x7d".data) := by
    simp [jsonDumps, error_data, jsonDumpsFields, hesc, String.data_append]
  unfold strContains
  rw [hd]
  apply listHasSub_append_left
  exact listHasSub_of_startsWith _ _ (listStartsWith_append x.data _)

/-- C7: a transport-successful tool response (`isError` absent or falsy)
whose text content decodes to a JSON object with `bSuccess: false` and an
embedded message `"X"` is converted by the result-handling step into the
structured error `create_error_response X`, whose `isError` is true and
whose serialized text contains `X` (stated for escape-free messages, which
`json.dumps` reproduces verbatim). -/
theorem business_failure_unwrap
    (fields cfields pfields : List (String × Json)) (rest : List Json) (ts x : String)
    (hie : (getKey? fields "isError").elim false Json.truthy = false)
    (hcontent : getKey? fields "content" = some (.arr (Json.obj cfields :: rest)))
    (htype : getKey? cfields "type" = some (.str "text"))
    (htext : getKey? cfields "text" = some (.str ts))
    (hparse : jsonLoads ts = some (.obj pfields))
    (hbs : getKey? pfields "bSuccess" = some (.bool false))
    (hmsg : getKey? pfields "error" = some (.str x))
    (hesc : x.data.all (fun c => escapeJsonChar c == [c]) = true) :
    handle_tool_result (.obj fields) = .ok (create_error_response x none) ∧
    jget (create_error_response x none) "isError" = some (.bool true) ∧
    jget (create_error_response x none) "content" =
      some (.arr [.obj [("type", .str "text"),
                        ("text", .str (jsonDumps (error_data x none)))]]) ∧
    strContains (jsonDumps (error_data x none)) x = true := by
  refine ⟨?_, by simp [create_error_response, jget, getKey?],
    by simp [create_error_response, jget, getKey?], error_text_has_message x hesc⟩
  simp [handle_tool_result, hie, hcontent, htype, htext, hparse, hbs, hmsg, jsonBeq]

/-- Witness for C7. -/
theorem business_failure_unwrap_witness :
    jsonLoads "\x7b\"bSuccess\": false, \"error\": \"X\"\x7d" =
      some (.obj [("bSuccess", Json.bool false), ("error", Json.str "X")]) ∧
    (handle_tool_result (.obj [("content", .arr [.obj [("type", Json.str "text"),
        ("text", Json.str "\x7b\"bSuccess\": false, \"error\": \"X\"\x7d")]])]) =
      .ok (create_error_response "X" none) ∧
     jget (create_error_response "X" none) "isError" = some (.bool true) ∧
     jget (create_error_response "X" none) "content" =
       some (.arr [.obj [("type", .str "text"),
                         ("text", .str (jsonDumps (error_data "X" none)))]]) ∧
     strContains (jsonDumps (error_data "X" none)) "X" = true) :=
  ⟨rfl,
   business_failure_unwrap
     [("content", .arr [.obj [("type", Json.str "text"),
        ("text", Json.str "\x7b\"bSuccess\": false, \"error\": \"X\"\x7d")]])]
     [("type", Json.str "text"),
      ("text", Json.str "\x7b\"bSuccess\": false, \"error\": \"X\"\x7d")]
     [("bSuccess", Json.bool false), ("error", Json.str "X")]
     [] "\x7b\"bSuccess\": false, \"error\": \"X\"\x7d" "X"
     rfl rfl rfl rfl rfl rfl rfl rfl⟩

/-- A retry-loop success is a transport success: the returned payload is the
decoded body of some transport invocation. -/
theorem retry_loop_ok_from_transport (transport : Nat → HttpOutcome) :
    ∀ (k start : Nat) (s : ClientState) (resp : Json),
      (retry_loop transport start k s).value = Except.ok resp →
      ∃ i, transport i = HttpOutcome.success resp := by
  intro k
  induction k with
  | zero =>
      intro start s resp h
      rw [retry_loop.eq_def] at h
      cases ho : transport start <;>
        simp only [ho, call_method_step, is_transient_error] at h <;> simp at h
      exact ⟨start, by simp [ho, h]⟩
  | succ n ih =>
      intro start s resp h
      rw [retry_loop.eq_def] at h
      cases ho : transport start <;>
        simp only [ho, call_method_step, is_transient_error] at h <;> simp at h
      case success body => exact ⟨start, by simp [ho, h]⟩
      case connectFail m => exact ih (start + 1) _ resp h
      case timeout m => exact ih (start + 1) _ resp h

/-- `call_tool_with_retry` version of `retry_loop_ok_from_transport`. -/
theorem call_tool_with_retry_ok_from_transport (transport : Nat → HttpOutcome)
    (tool_name : String) (tool_fn : Option (Option Bool))
    (catalogue : Option (List (String × Json))) (settings : ServerSettings)
    (s : ClientState) (resp : Json)
    (h : (call_tool_with_retry transport tool_name tool_fn catalogue settings s).value =
      Except.ok resp) :
    ∃ i, transport i = HttpOutcome.success resp := by
  simp only [call_tool_with_retry] at h
  split at h
  · cases ho : transport 0 <;> simp [call_method_step, ho] at h
    exact ⟨0, by simp [ho, h]⟩
  · exact retry_loop_ok_from_transport transport _ 0 s resp h

/-- Every dispatcher exception handler produces a `create_error_response`. -/
theorem dispatch_error_response_shape (e : ToolError) :
    ∃ msg code, dispatch_error_response e = create_error_response msg code := by
  cases e <;> exact ⟨_, _, rfl⟩

/-- `process_response` either reproduces a structured error or extracts the
`result` member of an error-free object response. -/
theorem process_response_cases (resp : Json) :
    (∃ msg code, process_response resp = create_error_response msg code) ∨
    (∃ fields, resp = Json.obj fields ∧ getKey? fields "error" = none ∧
      process_response resp = (getKey? fields "result").getD (Json.obj [])) := by
  cases resp with
  | obj fields =>
      cases he : getKey? fields "error" with
      | none => exact Or.inr ⟨fields, rfl, he, by simp [process_response, he]⟩
      | some e =>
          refine Or.inl ?_
          cases e with
          | obj efields =>
              exact ⟨(match getKey? efields "message" with
                      | some m => pyToStr m
                      | none => pyToStr (Json.obj efields)),
                     (match getKey? efields "code" with
                      | some c => if c.truthy then some (pyToStr c) else none
                      | none => none),
                     by simp [process_response, he]⟩
          | null => exact ⟨"Failed to call tool: " ++ "AttributeError",
              some "internal_error", by simp [process_response, he]⟩
          | bool b => exact ⟨"Failed to call tool: " ++ "AttributeError",
              some "internal_error", by simp [process_response, he]⟩
          | num n => exact ⟨"Failed to call tool: " ++ "AttributeError",
              some "internal_error", by simp [process_response, he]⟩
          | str st => exact ⟨"Failed to call tool: " ++ "AttributeError",
              some "internal_error", by simp [process_response, he]⟩
          | arr xs => exact ⟨"Failed to call tool: " ++ "AttributeError",
              some "internal_error", by simp [process_response, he]⟩
  | null => exact Or.inl ⟨_, _, rfl⟩
  | bool b => exact Or.inl ⟨_, _, rfl⟩
  | num n => exact Or.inl ⟨_, _, rfl⟩
  | str s => exact Or.inl ⟨_, _, rfl⟩
  | arr xs => exact Or.inl ⟨_, _, rfl⟩

/-- C1: `call_tool` is a total function — every dispatch, whatever the tool
name, catalogue, classification, settings and backend behaviour (connection
failure, timeout, JSON-RPC error response, malformed payload, or any other
exception), returns a result value: either the decoded `result` member of a
transport-successful error-free response, or a `create_error_response`
structured error, whose shape is exactly
`{isError: true, content: [{type: "text", text: dumps({error, code?})}]}`. -/
theorem call_tool_total_and_structured :
    (∀ (tool_name : String) (catalogue : Option (List (String × Json)))
        (tool_fn : Option (Option Bool)) (settings : ServerSettings)
        (probeOnline loopAvail : Bool) (transport : Nat → HttpOutcome) (s : ClientState),
      (∃ msg code,
        (call_tool tool_name catalogue tool_fn settings probeOnline loopAvail
          transport s).result = create_error_response msg code) ∨
      (∃ i fields, transport i = HttpOutcome.success (Json.obj fields) ∧
        getKey? fields "error" = none ∧
        (call_tool tool_name catalogue tool_fn settings probeOnline loopAvail
          transport s).result = (getKey? fields "result").getD (Json.obj []))) ∧
    (∀ (msg : String) (code : Option String),
      jget (create_error_response msg code) "isError" = some (Json.bool true) ∧
      jget (create_error_response msg code) "content" =
        some (.arr [.obj [("type", .str "text"),
                          ("text", .str (jsonDumps (error_data msg code)))]]) ∧
      jget (error_data msg code) "error" = some (.str msg)) := by
  constructor
  · intro tool_name catalogue tool_fn settings probeOnline loopAvail transport s
    by_cases hg : tool_missing catalogue tool_name = true
    · exact Or.inl ⟨"Tool \x27" ++ tool_name ++ "\x27 not found", none,
        by simp [call_tool, hg]⟩
    · by_cases hoff : (if settings.health_check_start_on_first_call && !s.healthStarted then
          init_async probeOnline loopAvail s else s).state = ConnectionState.offline
      · exact Or.inl ⟨backend_unavailable_message, none,
          by simp only [call_tool, if_neg hg, if_pos hoff]⟩
      · cases hv : (call_tool_with_retry transport tool_name tool_fn catalogue settings
            (if settings.health_check_start_on_first_call && !s.healthStarted then
              init_async probeOnline loopAvail s else s)).value with
        | error e =>
            obtain ⟨m, c, hm⟩ := dispatch_error_response_shape e
            exact Or.inl ⟨m, c, by simp only [call_tool, if_neg hg, if_neg hoff, hv, hm]⟩
        | ok resp =>
            have hres : (call_tool tool_name catalogue tool_fn settings probeOnline
                loopAvail transport s).result = process_response resp := by
              simp only [call_tool, if_neg hg, if_neg hoff, hv]
            rcases process_response_cases resp with ⟨m, c, hp⟩ | ⟨fields, hf, he, hp⟩
            · exact Or.inl ⟨m, c, by rw [hres, hp]⟩
            · obtain ⟨i, hi⟩ := call_tool_with_retry_ok_from_transport transport tool_name
                tool_fn catalogue settings _ resp hv
              exact Or.inr ⟨i, fields, by rw [hi, hf], he, by rw [hres, hp]⟩
  · intro msg code
    refine ⟨by simp [create_error_response, jget, getKey?],
      by simp [create_error_response, jget, getKey?], ?_⟩
    cases code with
    | none => simp [error_data, jget, getKey?]
    | some c =>
        by_cases hc : c.isEmpty <;> simp [error_data, hc, jget, getKey?]

/-- `jsonBeq` against a string literal is equality. -/
theorem jsonBeq_str_iff (x : Json) (a : String) :
    jsonBeq x (.str a) = true ↔ x = .str a := by
  cases x <;> simp [jsonBeq]

/-- Two values that differ cannot both lie in a singleton type group. -/
theorem singleton_group_absorbed (ct bt : Json) (a : String) (hne : jsonBeq ct bt = false) :
    (jsonBeq ct (.str a) && jsonBeq bt (.str a)) = false := by
  cases hc : jsonBeq ct (.str a) with
  | false => simp [hc]
  | true =>
    cases hb : jsonBeq bt (.str a) with
    | false => simp [hb]
    | true =>
      rw [(jsonBeq_str_iff ct a).mp hc, (jsonBeq_str_iff bt a).mp hb] at hne
      simp [jsonBeq] at hne

/-- On differing values, the source's group-based compatibility reduces to
joint membership in the number/integer group. -/
theorem types_compatible_eq_of_ne (ct bt : Json) (hne : jsonBeq ct bt = false) :
    types_compatible ct bt =
      ((jsonBeq ct (.str "number") || jsonBeq ct (.str "integer")) &&
       (jsonBeq bt (.str "number") || jsonBeq bt (.str "integer"))) := by
  simp only [types_compatible, List.any_cons, List.any_nil, Bool.or_false]
  rw [singleton_group_absorbed ct bt "string" hne,
      singleton_group_absorbed ct bt "boolean" hne,
      singleton_group_absorbed ct bt "array" hne,
      singleton_group_absorbed ct bt "object" hne]
  simp

/-- The specification's category rule equals "equal, or in the source's
compatibility groups": the two formulations agree on every pair of values. -/
theorem spec_types_compatible_eq (ct bt : Json) :
    spec_types_compatible ct bt = (jsonBeq ct bt || types_compatible ct bt) := by
  cases hb : jsonBeq ct bt with
  | true => simp [spec_types_compatible, hb]
  | false =>
    rw [types_compatible_eq_of_ne ct bt hb]
    simp only [spec_types_compatible, hb, Bool.false_or]
    rw [Bool.or_comm (jsonBeq ct (.str "integer")),
        Bool.or_comm (jsonBeq bt (.str "integer"))]

/-- `name` lookup on a built tool definition. -/
theorem jget_mk_tool_name (name : String) (props : List (String × Json)) (req : List Json) :
    jget (mk_tool name props req) "name" = some (.str name) := rfl

/-- `inputSchema` lookup on a built tool definition. -/
theorem jget_mk_tool_schema (name : String) (props : List (String × Json)) (req : List Json) :
    jget (mk_tool name props req) "inputSchema" =
      some (.obj [("properties", .obj props), ("required", .arr req)]) := rfl

/-- `required` lookup on a built input schema. -/
theorem jget_schema_required (props : List (String × Json)) (req : List Json) :
    jget (.obj [("properties", .obj props), ("required", .arr req)]) "required" =
      some (.arr req) := rfl

/-- `properties` lookup on a built input schema. -/
theorem jget_schema_properties (props : List (String × Json)) (req : List Json) :
    jget (.obj [("properties", .obj props), ("required", .arr req)]) "properties" =
      some (.obj props) := rfl

/-- C8 counterexample: a field present in both schemas but not
backend-required, with incompatible primitive type categories (`string` vs
`integer`), yields zero issues from `compare_tool_definitions` — the source
type-checks only backend-required fields, so the claim's quantification over
all "fields present in both schemas" fails at this input. -/
theorem compare_nonrequired_mismatch_unreported :
    compare_tool_definitions
        (mk_tool "t" [("c", .obj [("type", .str "string")])] [])
        (mk_tool "t" [("c", .obj [("type", .str "integer")])] []) = [] ∧
    (propGet (.obj [("c", Json.obj [("type", Json.str "string")])]) (.str "c")).isSome = true ∧
    (propGet (.obj [("c", Json.obj [("type", Json.str "integer")])]) (.str "c")).isSome = true ∧
    spec_types_compatible (.str "string") (.str "integer") = false :=
  ⟨rfl, rfl, rfl, rfl⟩

/-- A one-issue `if` is empty exactly when its guard holds. -/
theorem if_nil_singleton (b : Bool) (m : String) :
    ((if b then ([] : List String) else [m]) = []) ↔ b = true := by
  cases b <;> simp

/-- C8 (amended): for same-named tool schemas, `compare_tool_definitions`
reports no issue exactly when every backend-required field exists in the
local properties and every backend-required field present in both property
maps with a declared truthy type on both sides has compatible primitive type
categories (integer/number interchangeable, other categories only matching
themselves); non-required common fields, extra optional fields, descriptions
and defaults never produce an issue.  In particular the two concrete schema
examples behave as the specification states. -/
theorem compare_tool_definitions_characterization :
    (∀ (n : String) (cprops bprops : List (String × Json)) (creq : List Json)
        (req : List String),
      compare_tool_definitions (mk_tool n cprops creq)
          (mk_tool n bprops (req.map Json.str)) = [] ↔
        (∀ f ∈ req, (getKey? cprops f).isSome = true) ∧
        (∀ f ∈ req, ∀ ct bt : Json,
          (getKey? cprops f).bind (fun p => jget p "type") = some ct →
          (getKey? bprops f).bind (fun p => jget p "type") = some bt →
          ct.truthy = true → bt.truthy = true → spec_types_compatible ct bt = true)) ∧
    compare_tool_definitions
        (mk_tool "t" [("a", .obj [("type", .str "string")])] [.str "a"])
        (mk_tool "t" [("a", .obj [("type", .str "string")]),
                      ("b", .obj [("type", .str "integer")])] [.str "a", .str "b"]) =
      ["Missing required fields in proxy schema: b"] ∧
    compare_tool_definitions
        (mk_tool "t" [("a", .obj [("type", .str "integer")])] [.str "a"])
        (mk_tool "t" [("a", .obj [("type", .str "number")])] [.str "a"]) = [] := by
  refine ⟨?_, rfl, rfl⟩
  intro n cprops bprops creq req
  simp only [compare_tool_definitions, jget_mk_tool_name, jget_mk_tool_schema,
    jget_schema_required, jget_schema_properties, Option.getD_some, jsonBeq,
    beq_self_eq_true, Bool.not_true, Bool.false_eq_true, if_false]
  rw [List.append_eq_nil]
  apply and_congr
  · rw [if_nil_singleton, List.isEmpty_iff, List.filter_eq_nil_iff]
    constructor
    · intro h f hf
      have h2 := h (Json.str f) (List.mem_map_of_mem _ hf)
      simpa [propGet, Option.isSome_iff_ne_none] using h2
    · intro h a ha
      obtain ⟨f, hf, rfl⟩ := List.mem_map.mp ha
      simpa [propGet, Option.isSome_iff_ne_none] using h f hf
  · rw [List.filterMap_eq_nil_iff]
    constructor
    · intro h f hf ct bt hct hbt htc htb
      have hb := h (Json.str f) (List.mem_map_of_mem _ hf)
      obtain ⟨p, hp, hpt⟩ := Option.bind_eq_some.mp hct
      obtain ⟨q, hq, hqt⟩ := Option.bind_eq_some.mp hbt
      rw [spec_types_compatible_eq]
      by_cases hbeq : jsonBeq ct bt = true
      · simp [hbeq]
      · have hbf : jsonBeq ct bt = false := by simpa using hbeq
        by_cases hcc : types_compatible ct bt = true
        · simp [hcc]
        · exfalso
          simp [propGet, hp, hq, hpt, hqt, htc, htb, hbf, hcc] at hb
    · intro h a ha
      obtain ⟨f, hf, rfl⟩ := List.mem_map.mp ha
      simp only [propGet]
      by_cases hcs : (getKey? cprops f).isSome = true
      · by_cases hbs2 : (getKey? bprops f).isSome = true
        · obtain ⟨p, hp⟩ := Option.isSome_iff_exists.mp hcs
          obtain ⟨q, hq⟩ := Option.isSome_iff_exists.mp hbs2
          simp only [hp, hq, Option.isSome_some, Bool.and_self, if_true, Option.some_bind]
          cases hct : jget p "type" with
          | none => simp
          | some ct =>
            cases hbt : jget q "type" with
            | none => simp
            | some bt =>
              by_cases htc : ct.truthy = true
              · by_cases htb : bt.truthy = true
                · by_cases hbeq : jsonBeq ct bt = true
                  · simp [htc, htb, hbeq]
                  · have hbf : jsonBeq ct bt = false := by simpa using hbeq
                    have hspec := h f hf ct bt (by simp [hp, hct]) (by simp [hq, hbt]) htc htb
                    rw [spec_types_compatible_eq, hbf, Bool.false_or] at hspec
                    simp [htc, htb, hbf, hspec]
                · simp [htb]
              · simp [htc]
        · simp [hbs2]
      · simp [hcs]

end UnrealMCPProxy
